import Mathlib

/-!
# A verification model of `deco-cx/github-projects-mcp`

Shallow embedding of the server-side logic of the repository:

* the tracking store (`server/schema.ts`, `server/tools/tracking.ts`):
  two independent tables (`tracked_repositories`, `tracked_projects`)
  with add / remove (soft or hard delete) operations;
* the GitHub API client (`server/lib/github.ts`): `graphqlQuery` and
  `restRequest`, including 429 rate-limit handling, generic non-2xx
  failures and GraphQL-level error propagation;
* the tool handlers (`server/tools/issues.ts`, `server/tools/projects.ts`):
  the GitHub-token guard, the organization-login fallback and the page-size
  computation `Math.min(context.first || 20, 100)`, together with the list
  of GraphQL requests each handler issues.

Tables are lists of rows in rowid order.  A `SELECT ... WHERE p LIMIT 1`
is `(rows.filter p).take 1` (SQLite returns rows in storage order when no
`ORDER BY` is given).  SQL `UPDATE ... WHERE` is a `List.map` that rewrites
the matching rows, `DELETE ... WHERE` a `List.filter`, and `INSERT` an
append with the next rowid.  Timestamps are `Nat` values passed in
explicitly (`createdAt`); ISO-8601 rendering of timestamps is not modelled.
JavaScript numbers occurring in the code are modelled as `Int`
(the values involved are integral), `NaN` as `Option.none` where it can
arise (`parseInt`), and string/number falsiness is spelled out at each
use site.
-/

namespace GithubProjectsMCP

/-! ## Tracking store: rows and outputs (`server/schema.ts`) -/

/-- A row of the `tracked_repositories` table.  `isActive` is the raw
integer column (1 = active, 0 = inactive). -/
structure TrackedRepo where
  id : Nat
  owner : String
  name : String
  isActive : Nat
  createdAt : Nat
deriving Repr, DecidableEq

/-- A row of the `tracked_projects` table.  `projectId` is GitHub's own
project node identifier. -/
structure TrackedProject where
  id : Nat
  projectId : String
  title : String
  organizationLogin : String
  isActive : Nat
  createdAt : Nat
deriving Repr, DecidableEq

/-- The `repository` object returned by `ADD_TRACKED_REPOSITORY`
(`isActive` is rendered as a boolean via `isActive === 1`). -/
structure RepoOut where
  id : Nat
  owner : String
  name : String
  isActive : Bool
  createdAt : Nat
deriving Repr, DecidableEq

/-- The `project` object returned by `ADD_TRACKED_PROJECT`. -/
structure ProjectOut where
  id : Nat
  projectId : String
  title : String
  organizationLogin : String
  isActive : Bool
  createdAt : Nat
deriving Repr, DecidableEq

/-- The output of the two remove tools. -/
structure RemoveOut where
  success : Bool
  deletedId : Nat
deriving Repr, DecidableEq

/-- Rendering of a repository row into the tool output. -/
def repoOut (r : TrackedRepo) : RepoOut :=
  { id := r.id, owner := r.owner, name := r.name,
    isActive := r.isActive == 1, createdAt := r.createdAt }

/-- Rendering of a project row into the tool output. -/
def projectOut (p : TrackedProject) : ProjectOut :=
  { id := p.id, projectId := p.projectId, title := p.title,
    organizationLogin := p.organizationLogin,
    isActive := p.isActive == 1, createdAt := p.createdAt }

/-- Rowid chosen by SQLite for an insert into `tracked_repositories`
(an `INTEGER PRIMARY KEY` defaults to one more than the largest rowid). -/
def freshRepoRowId (rows : List TrackedRepo) : Nat :=
  (rows.foldl (fun m r => max m r.id) 0) + 1

/-- Rowid chosen by SQLite for an insert into `tracked_projects`. -/
def freshProjectRowId (rows : List TrackedProject) : Nat :=
  (rows.foldl (fun m r => max m r.id) 0) + 1

/-! ## Tracking tools (`server/tools/tracking.ts`) -/

/-- `ADD_TRACKED_REPOSITORY`.  Mirrors `createAddTrackedRepository`:
the pre-insert lookup is `select().from(...).where(eq(owner)).limit(1)`
followed by `existing.find((r) => r.name === context.name)`; a found
inactive row is reactivated, a found active row returned as is, and
otherwise a new row is inserted with `isActive = 1`. -/
def addTrackedRepository (rows : List TrackedRepo) (owner name : String)
    (now : Nat) : List TrackedRepo × RepoOut :=
  let existing := (rows.filter (fun r => r.owner == owner)).take 1
  match existing.find? (fun r => r.name == name) with
  | some matchingRepo =>
      if matchingRepo.isActive = 0 then
        (rows.map (fun r =>
           if r.id = matchingRepo.id then { r with isActive := 1 } else r),
         repoOut { matchingRepo with isActive := 1 })
      else
        (rows, repoOut matchingRepo)
  | none =>
      let newRow : TrackedRepo :=
        { id := freshRepoRowId rows, owner := owner, name := name,
          isActive := 1, createdAt := now }
      (rows ++ [newRow], repoOut newRow)

/-- `REMOVE_TRACKED_REPOSITORY`.  Mirrors `createRemoveTrackedRepository`:
existence check by id, then either a hard `DELETE` or an `UPDATE` setting
`isActive = 0`; a missing id throws before any mutation. -/
def removeTrackedRepository (rows : List TrackedRepo) (id : Nat)
    (hardDelete : Bool) : List TrackedRepo × Except String RemoveOut :=
  let existing := (rows.filter (fun r => r.id == id)).take 1
  if existing.isEmpty then
    (rows, .error ("Tracked repository with ID " ++ toString id ++ " not found"))
  else if hardDelete then
    (rows.filter (fun r => !(r.id == id)), .ok { success := true, deletedId := id })
  else
    (rows.map (fun r => if r.id = id then { r with isActive := 0 } else r),
     .ok { success := true, deletedId := id })

/-- `ADD_TRACKED_PROJECT`.  Mirrors `createAddTrackedProject`: the lookup
filters on the (uniquely indexed) `projectId` column with `limit(1)`;
a found inactive row is reactivated with the new title, a found active
row gets its title refreshed, otherwise a new row is inserted. -/
def addTrackedProject (rows : List TrackedProject)
    (projectId title organizationLogin : String) (now : Nat) :
    List TrackedProject × ProjectOut :=
  let existing := (rows.filter (fun r => r.projectId == projectId)).take 1
  match existing.head? with
  | some project =>
      if project.isActive = 0 then
        (rows.map (fun r =>
           if r.id = project.id then { r with isActive := 1, title := title } else r),
         projectOut { project with isActive := 1, title := title })
      else
        (rows.map (fun r =>
           if r.id = project.id then { r with title := title } else r),
         projectOut { project with title := title })
  | none =>
      let newRow : TrackedProject :=
        { id := freshProjectRowId rows, projectId := projectId, title := title,
          organizationLogin := organizationLogin, isActive := 1, createdAt := now }
      (rows ++ [newRow], projectOut newRow)

/-- `REMOVE_TRACKED_PROJECT`.  Mirrors `createRemoveTrackedProject`. -/
def removeTrackedProject (rows : List TrackedProject) (id : Nat)
    (hardDelete : Bool) : List TrackedProject × Except String RemoveOut :=
  let existing := (rows.filter (fun r => r.id == id)).take 1
  if existing.isEmpty then
    (rows, .error ("Tracked project with ID " ++ toString id ++ " not found"))
  else if hardDelete then
    (rows.filter (fun r => !(r.id == id)), .ok { success := true, deletedId := id })
  else
    (rows.map (fun r => if r.id = id then { r with isActive := 0 } else r),
     .ok { success := true, deletedId := id })

/-! ## GitHub API client (`server/lib/github.ts`) -/

/-- An entry of the top-level `errors` array of a GraphQL response body. -/
structure GraphQLErrorEntry where
  message : String
deriving Repr, DecidableEq

/-- The JSON body of a GraphQL HTTP response, as read by `graphqlQuery`
through the `GraphQLResponse<T>` interface (`data` and `errors`), plus the
top-level `message` field that GitHub puts in plain error bodies — present
in the raw JSON but never read by `graphqlQuery`. -/
structure GraphQLBody (α : Type) where
  data : Option α
  errors : Option (List GraphQLErrorEntry)
  message : Option String
deriving Repr, DecidableEq

/-- An HTTP response to a GraphQL request: status, status text, the
`Retry-After` header (`none` when absent) and the parsed JSON body. -/
structure HttpResponseG (α : Type) where
  status : Nat
  statusText : String
  retryAfterHeader : Option String
  body : GraphQLBody α
deriving Repr, DecidableEq

/-- The error body a REST error response parses to (`errorBody.message`). -/
structure RestErrorBody where
  message : Option String
deriving Repr, DecidableEq

/-- An HTTP response to a REST request.  `errorBody` is the result of
parsing the body as JSON on the error path (`none` when not parseable);
`body` is the parsed success payload. -/
structure HttpResponseR (α : Type) where
  status : Nat
  statusText : String
  retryAfterHeader : Option String
  errorBody : Option RestErrorBody
  body : α
deriving Repr, DecidableEq

/-- The errors thrown by the client: the distinguished rate-limit error
(`GitHubRateLimitError`, whose `retryAfter` field is a JS number — `none`
models `NaN`) and plain `Error` values. -/
inductive GitHubError where
  | rateLimit (message : String) (retryAfter : Option Int)
  | generic (message : String)
deriving Repr, DecidableEq

/-- `fetch`'s `response.ok`: status in the inclusive range 200–299. -/
def responseOk (status : Nat) : Bool :=
  decide (200 ≤ status ∧ status ≤ 299)

/-- The whitespace skipped by JavaScript's `parseInt` (the forms that can
occur in an HTTP header value). -/
def isJsWhitespace (c : Char) : Bool :=
  c == ' ' || c == '\t' || c == '\n' || c == '\r'

/-- The decimal value of a list of digit characters. -/
def decimalValue (ds : List Char) : Nat :=
  ds.foldl (fun a c => a * 10 + (c.toNat - 48)) 0

/-- The longest leading run of decimal digits, as a number; `none` when
there is no leading digit (JS `parseInt` yields `NaN` there). -/
def parseLeadingDigits (cs : List Char) : Option Nat :=
  let ds := cs.takeWhile Char.isDigit
  if ds.isEmpty then none else some (decimalValue ds)

/-- `parseInt` after whitespace stripping: an optional sign followed by
leading digits. -/
def jsParseIntCore (cs : List Char) : Option Int :=
  if cs.head? = some '-' then (parseLeadingDigits cs.tail).map (fun n => -(n : Int))
  else if cs.head? = some '+' then (parseLeadingDigits cs.tail).map (fun n => (n : Int))
  else (parseLeadingDigits cs).map (fun n => (n : Int))

/-- JavaScript's `parseInt(s, 10)`; `none` models `NaN`. -/
def jsParseInt (s : String) : Option Int :=
  jsParseIntCore (s.data.dropWhile isJsWhitespace)

/-- The `retryAfter` field of the rate-limit error:
`retryAfter ? parseInt(retryAfter, 10) : 60` — a missing or empty
`Retry-After` header is falsy and defaults to 60. -/
def retryAfterValue (header : Option String) : Option Int :=
  match header with
  | none => some 60
  | some s => if s = "" then some 60 else jsParseInt s

/-- The header value as interpolated into the error message
(`null` prints as "null" in a template literal). -/
def headerInterp (header : Option String) : String :=
  match header with
  | none => "null"
  | some s => s

/-- The message of the rate-limit error. -/
def rateLimitMessage (header : Option String) : String :=
  "Rate limit exceeded. Retry after " ++ headerInterp header ++ " seconds."

/-- The GraphQL-level handling of a 2xx body: a non-empty top-level
`errors` array fails, then a missing `data` field fails, otherwise the
`data` payload is returned. -/
def graphqlData {α : Type} (body : GraphQLBody α) : Except GitHubError α :=
  let es := body.errors.getD []
  if !es.isEmpty then
    .error (.generic ("GraphQL errors: " ++
      String.intercalate ", " (es.map GraphQLErrorEntry.message)))
  else
    match body.data with
    | none => .error (.generic "GraphQL response missing data")
    | some d => .ok d

/-- `graphqlQuery`: 429 throws the rate-limit error, any other non-2xx
status throws a generic error built from status and status text alone,
and a 2xx response is handled by `graphqlData`. -/
def graphqlQuery {α : Type} (resp : HttpResponseG α) : Except GitHubError α :=
  if resp.status = 429 then
    .error (.rateLimit (rateLimitMessage resp.retryAfterHeader)
      (retryAfterValue resp.retryAfterHeader))
  else if !(responseOk resp.status) then
    .error (.generic ("GitHub API request failed: " ++ toString resp.status
      ++ " " ++ resp.statusText))
  else
    graphqlData resp.body

/-- `restRequest`: 429 throws the rate-limit error; any other non-2xx
status throws a generic error from status and status text, extended with
`" - " ++ message` when the body parsed to JSON with a truthy `message`;
a 204 returns the empty object (`empty`), else the parsed body. -/
def restRequest {α : Type} (resp : HttpResponseR α) (empty : α) :
    Except GitHubError α :=
  if resp.status = 429 then
    .error (.rateLimit (rateLimitMessage resp.retryAfterHeader)
      (retryAfterValue resp.retryAfterHeader))
  else if !(responseOk resp.status) then
    let base := "GitHub REST API request failed: " ++ toString resp.status
      ++ " " ++ resp.statusText
    .error (.generic
      (match resp.errorBody with
       | some b =>
           match b.message with
           | some m => if m = "" then base else base ++ " - " ++ m
           | none => base
       | none => base))
  else if resp.status = 204 then
    .ok empty
  else
    .ok resp.body

/-- Classifier: the `retryAfter` payload when the call failed with the
distinguished rate-limit error, `none` otherwise. -/
def rateLimitRetry {α : Type} (e : Except GitHubError α) : Option (Option Int) :=
  match e with
  | .error (.rateLimit _ r) => some r
  | _ => none

/-- Classifier: did the call fail with a plain (non-rate-limit) error? -/
def isGenericError {α : Type} (e : Except GitHubError α) : Bool :=
  match e with
  | .error (.generic _) => true
  | _ => false

/-! ## Tool handlers (`server/tools/issues.ts`, `server/tools/projects.ts`)

Each handler reads `env.DECO_REQUEST_CONTEXT?.state` and throws when
`state?.githubToken` is falsy, then builds one or two fixed GraphQL
requests and sends them through `graphqlQuery`.  We model a handler as a
function from the request-scoped state and a response oracle to its
result together with the list of GraphQL requests it issued, in order.
Query/mutation texts are identified symbolically; of the variables only
the page-size variable `$first` is tracked (the others are opaque strings
that do not influence control flow), and the final reshaping of the
returned `data` payload into the tool's output schema is not modelled —
the handler yields the raw payload. -/

/-- The request-scoped state (`StateSchema` in `server/main.ts`). -/
structure RequestState where
  githubToken : Option String
  defaultOrganization : Option String
deriving Repr, DecidableEq

/-- Truthiness of `state?.githubToken`: the context, the state's token
field, and a non-empty token string must all be present. -/
def hasGithubToken (ctx : Option RequestState) : Bool :=
  match ctx with
  | none => false
  | some st =>
      match st.githubToken with
      | none => false
      | some t => !(t == "")

/-- The configuration-error message thrown by every GitHub-facing tool. -/
def tokenNotConfiguredMessage : String :=
  "GitHub token not configured. Please configure your app with a GitHub Personal Access Token."

/-- The message thrown when no organization login is available. -/
def orgRequiredMessage : String :=
  "Organization login is required. Provide it in the input or set a default organization in app configuration."

/-- `context.organizationLogin || state.defaultOrganization`, collapsing
an absent default to the (equally falsy) empty string. -/
def defaultOrgOf (ctx : Option RequestState) : String :=
  match ctx with
  | some st => st.defaultOrganization.getD ""
  | none => ""

/-- JavaScript `v || fallback` on numbers (0 is falsy). -/
def jsNumberOr (v fallback : Int) : Int :=
  if v = 0 then fallback else v

/-- The page size a paginated handler sends:
`Math.min(context.first || 20, 100)`. -/
def requestedPageSize (first : Int) : Int :=
  min (jsNumberOr first 20) 100

/-- Symbolic names for the query/mutation texts in the source. -/
inductive GQLQueryId where
  | listIssues | getIssue | getRepositoryId | getIssueId | createIssue
  | updateIssue | closeIssue | addComment | listComments | addLabels
  | removeLabels | assignIssue | unassignIssue
  | listProjects | getProject | getOrgId | createProject | updateProject
  | deleteProject | listProjectItems | addItemToProject | viewer
deriving Repr, DecidableEq

/-- A GraphQL request as issued by a handler: which query text, and the
value of the `$first` variable when the query paginates. -/
structure GQLRequest where
  queryId : GQLQueryId
  first : Option Int
deriving Repr, DecidableEq

/-- A handler that checks the token guard and then issues a single
GraphQL request. -/
def guardedSingle {α : Type} (ctx : Option RequestState) (qid : GQLQueryId)
    (firstVar : Option Int) (oracle : GQLRequest → HttpResponseG α) :
    Except GitHubError α × List GQLRequest :=
  if !(hasGithubToken ctx) then
    (.error (.generic tokenNotConfiguredMessage), [])
  else
    let req : GQLRequest := { queryId := qid, first := firstVar }
    (graphqlQuery (oracle req), [req])

/-- A handler that checks the token guard, resolves a node id with a
first query, and then issues its mutation. -/
def guardedChain {α : Type} (ctx : Option RequestState)
    (firstId secondId : GQLQueryId) (oracle : GQLRequest → HttpResponseG α) :
    Except GitHubError α × List GQLRequest :=
  if !(hasGithubToken ctx) then
    (.error (.generic tokenNotConfiguredMessage), [])
  else
    let req1 : GQLRequest := { queryId := firstId, first := none }
    match graphqlQuery (oracle req1) with
    | .error e => (.error e, [req1])
    | .ok _ =>
        let req2 : GQLRequest := { queryId := secondId, first := none }
        (graphqlQuery (oracle req2), [req1, req2])

/-- `LIST_ISSUES` (`createListIssues`). -/
def listIssuesExec {α : Type} (ctx : Option RequestState) (first : Int)
    (oracle : GQLRequest → HttpResponseG α) :
    Except GitHubError α × List GQLRequest :=
  guardedSingle ctx .listIssues (some (requestedPageSize first)) oracle

/-- `GET_ISSUE` (`createGetIssue`). -/
def getIssueExec {α : Type} (ctx : Option RequestState)
    (oracle : GQLRequest → HttpResponseG α) :
    Except GitHubError α × List GQLRequest :=
  guardedSingle ctx .getIssue none oracle

/-- `CREATE_ISSUE` (`createCreateIssue`): repository node id, then the
`createIssue` mutation. -/
def createIssueExec {α : Type} (ctx : Option RequestState)
    (oracle : GQLRequest → HttpResponseG α) :
    Except GitHubError α × List GQLRequest :=
  guardedChain ctx .getRepositoryId .createIssue oracle

/-- `UPDATE_ISSUE` (`createUpdateIssue`): issue node id, then mutation. -/
def updateIssueExec {α : Type} (ctx : Option RequestState)
    (oracle : GQLRequest → HttpResponseG α) :
    Except GitHubError α × List GQLRequest :=
  guardedChain ctx .getIssueId .updateIssue oracle

/-- `CLOSE_ISSUE` (`createCloseIssue`). -/
def closeIssueExec {α : Type} (ctx : Option RequestState)
    (oracle : GQLRequest → HttpResponseG α) :
    Except GitHubError α × List GQLRequest :=
  guardedChain ctx .getIssueId .closeIssue oracle

/-- `ADD_ISSUE_COMMENT` (`createAddIssueComment`). -/
def addIssueCommentExec {α : Type} (ctx : Option RequestState)
    (oracle : GQLRequest → HttpResponseG α) :
    Except GitHubError α × List GQLRequest :=
  guardedChain ctx .getIssueId .addComment oracle

/-- `LIST_ISSUE_COMMENTS` (`createListIssueComments`). -/
def listIssueCommentsExec {α : Type} (ctx : Option RequestState) (first : Int)
    (oracle : GQLRequest → HttpResponseG α) :
    Except GitHubError α × List GQLRequest :=
  guardedSingle ctx .listComments (some (requestedPageSize first)) oracle

/-- `ADD_LABELS_TO_ISSUE` (`createAddLabelsToIssue`). -/
def addLabelsToIssueExec {α : Type} (ctx : Option RequestState)
    (oracle : GQLRequest → HttpResponseG α) :
    Except GitHubError α × List GQLRequest :=
  guardedChain ctx .getIssueId .addLabels oracle

/-- `REMOVE_LABELS_FROM_ISSUE` (`createRemoveLabelsFromIssue`). -/
def removeLabelsFromIssueExec {α : Type} (ctx : Option RequestState)
    (oracle : GQLRequest → HttpResponseG α) :
    Except GitHubError α × List GQLRequest :=
  guardedChain ctx .getIssueId .removeLabels oracle

/-- `ASSIGN_ISSUE` (`createAssignIssue`). -/
def assignIssueExec {α : Type} (ctx : Option RequestState)
    (oracle : GQLRequest → HttpResponseG α) :
    Except GitHubError α × List GQLRequest :=
  guardedChain ctx .getIssueId .assignIssue oracle

/-- `UNASSIGN_ISSUE` (`createUnassignIssue`). -/
def unassignIssueExec {α : Type} (ctx : Option RequestState)
    (oracle : GQLRequest → HttpResponseG α) :
    Except GitHubError α × List GQLRequest :=
  guardedChain ctx .getIssueId .unassignIssue oracle

/-- `LIST_GITHUB_PROJECTS` (`createListGitHubProjects`): token guard,
organization-login fallback, then a single paginated query. -/
def listGitHubProjectsExec {α : Type} (ctx : Option RequestState)
    (organizationLogin : String) (first : Int)
    (oracle : GQLRequest → HttpResponseG α) :
    Except GitHubError α × List GQLRequest :=
  if !(hasGithubToken ctx) then
    (.error (.generic tokenNotConfiguredMessage), [])
  else
    let orgLogin :=
      if organizationLogin = "" then defaultOrgOf ctx else organizationLogin
    if orgLogin = "" then
      (.error (.generic orgRequiredMessage), [])
    else
      let req : GQLRequest :=
        { queryId := .listProjects, first := some (requestedPageSize first) }
      (graphqlQuery (oracle req), [req])

/-- `GET_PROJECT_DETAILS` (`createGetProjectDetails`). -/
def getProjectDetailsExec {α : Type} (ctx : Option RequestState)
    (oracle : GQLRequest → HttpResponseG α) :
    Except GitHubError α × List GQLRequest :=
  guardedSingle ctx .getProject none oracle

/-- `CREATE_PROJECT` (`createCreateProject`): token guard, organization
fallback, organization node id, then the mutation. -/
def createProjectExec {α : Type} (ctx : Option RequestState)
    (organizationLogin : String) (oracle : GQLRequest → HttpResponseG α) :
    Except GitHubError α × List GQLRequest :=
  if !(hasGithubToken ctx) then
    (.error (.generic tokenNotConfiguredMessage), [])
  else
    let orgLogin :=
      if organizationLogin = "" then defaultOrgOf ctx else organizationLogin
    if orgLogin = "" then
      (.error (.generic orgRequiredMessage), [])
    else
      let req1 : GQLRequest := { queryId := .getOrgId, first := none }
      match graphqlQuery (oracle req1) with
      | .error e => (.error e, [req1])
      | .ok _ =>
          let req2 : GQLRequest := { queryId := .createProject, first := none }
          (graphqlQuery (oracle req2), [req1, req2])

/-- `UPDATE_PROJECT` (`createUpdateProject`). -/
def updateProjectExec {α : Type} (ctx : Option RequestState)
    (oracle : GQLRequest → HttpResponseG α) :
    Except GitHubError α × List GQLRequest :=
  guardedSingle ctx .updateProject none oracle

/-- `DELETE_PROJECT` (`createDeleteProject`). -/
def deleteProjectExec {α : Type} (ctx : Option RequestState)
    (oracle : GQLRequest → HttpResponseG α) :
    Except GitHubError α × List GQLRequest :=
  guardedSingle ctx .deleteProject none oracle

/-- `LIST_PROJECT_ITEMS` (`createListProjectItems`). -/
def listProjectItemsExec {α : Type} (ctx : Option RequestState) (first : Int)
    (oracle : GQLRequest → HttpResponseG α) :
    Except GitHubError α × List GQLRequest :=
  guardedSingle ctx .listProjectItems (some (requestedPageSize first)) oracle

/-- `ADD_ITEM_TO_PROJECT` (`createAddItemToProject`). -/
def addItemToProjectExec {α : Type} (ctx : Option RequestState)
    (oracle : GQLRequest → HttpResponseG α) :
    Except GitHubError α × List GQLRequest :=
  guardedSingle ctx .addItemToProject none oracle

/-- Modelled from the spec: the user tools module (`server/tools/user.ts`)
is referenced by the tool registry (`server/tools/index.ts`) but its
source is not available here.  Per §7 of the specification, every
GitHub-facing tool surfaces a missing credential configuration
immediately as a rejected call with a descriptive message, before any
GraphQL request is built or sent; on a configured token it proxies a
single query about the authenticated user. -/
def userToolExec {α : Type} (ctx : Option RequestState)
    (oracle : GQLRequest → HttpResponseG α) :
    Except GitHubError α × List GQLRequest :=
  guardedSingle ctx .viewer none oracle

/-! ## Observation functions and concrete fixtures -/

/-- The fields of a repository row that reactivation and soft delete must
not touch (everything except `isActive`). -/
def repoFrame (r : TrackedRepo) : Nat × String × String × Nat :=
  (r.id, r.owner, r.name, r.createdAt)

/-- The fields of a project row that a duplicate add must not touch
(everything except `isActive` and `title`). -/
def projectAddFrame (p : TrackedProject) : Nat × String × String × Nat :=
  (p.id, p.projectId, p.organizationLogin, p.createdAt)

/-- The fields of a project row that soft delete must not touch
(everything except `isActive`). -/
def projectFullFrame (p : TrackedProject) : Nat × String × String × String × Nat :=
  (p.id, p.projectId, p.title, p.organizationLogin, p.createdAt)

/-- A store in which owner "a" tracks two repositories; the `(a, x)` row
is not the first row of owner "a". -/
def dupOwnerRows : List TrackedRepo :=
  [{ id := 1, owner := "a", name := "y", isActive := 1, createdAt := 0 },
   { id := 2, owner := "a", name := "x", isActive := 1, createdAt := 0 }]

/-- A 500 GraphQL response whose JSON body carries a `message` field. -/
def cexResp500 : HttpResponseG Nat :=
  { status := 500, statusText := "Internal Server Error",
    retryAfterHeader := none,
    body := { data := none, errors := none, message := some "boom" } }

/-- A benign 200 response used as a constant oracle. -/
def okResp : HttpResponseG Nat :=
  { status := 200, statusText := "OK", retryAfterHeader := none,
    body := { data := some 0, errors := none, message := none } }

/-- A constant response oracle. -/
def oracle0 : GQLRequest → HttpResponseG Nat := fun _ => okResp

/-- A request context holding a configured token and default org. -/
def ctxW : Option RequestState :=
  some { githubToken := some "tok", defaultOrganization := some "deco-cx" }

/-- 429 GraphQL response without a `Retry-After` header. -/
def respG429none : HttpResponseG Nat :=
  { status := 429, statusText := "Too Many Requests", retryAfterHeader := none,
    body := { data := none, errors := none, message := none } }

/-- 429 GraphQL response with `Retry-After: 30`. -/
def respG429s : HttpResponseG Nat :=
  { status := 429, statusText := "Too Many Requests",
    retryAfterHeader := some "30",
    body := { data := none, errors := none, message := none } }

/-- 429 REST response without a `Retry-After` header. -/
def respR429none : HttpResponseR Nat :=
  { status := 429, statusText := "Too Many Requests", retryAfterHeader := none,
    errorBody := none, body := 0 }

/-- 429 REST response with `Retry-After: 30`. -/
def respR429s : HttpResponseR Nat :=
  { status := 429, statusText := "Too Many Requests",
    retryAfterHeader := some "30", errorBody := none, body := 0 }

/-- 404 GraphQL response. -/
def respG404 : HttpResponseG Nat :=
  { status := 404, statusText := "Not Found", retryAfterHeader := none,
    body := { data := none, errors := none, message := some "nope" } }

/-- 404 REST response with a parseable error body. -/
def respR404 : HttpResponseR Nat :=
  { status := 404, statusText := "Not Found", retryAfterHeader := none,
    errorBody := some { message := some "nope" }, body := 0 }

/-- 200 GraphQL response with a non-empty `errors` array and no `data`. -/
def respOkErrs : HttpResponseG Nat :=
  { status := 200, statusText := "OK", retryAfterHeader := none,
    body := { data := none, errors := some [{ message := "bad query" }],
              message := none } }

/-- 200 GraphQL response carrying a `data` payload. -/
def respOkData : HttpResponseG Nat :=
  { status := 200, statusText := "OK", retryAfterHeader := none,
    body := { data := some 7, errors := none, message := none } }

/-- A one-row repository store. -/
def wRepoRows : List TrackedRepo :=
  [{ id := 1, owner := "deco-cx", name := "deco", isActive := 1, createdAt := 0 }]

/-- A one-row project store holding an inactive project. -/
def wProjRows : List TrackedProject :=
  [{ id := 1, projectId := "PVT_1", title := "Old", organizationLogin := "deco-cx",
     isActive := 0, createdAt := 0 }]

/-! ## Helper lemmas -/

/-- A digit character is not `parseInt` whitespace. -/
theorem digit_not_ws (c : Char) (h : c.isDigit = true) :
    isJsWhitespace c = false := by
  by_contra hws
  rw [Bool.not_eq_false] at hws
  simp only [isJsWhitespace, Bool.or_eq_true, beq_iff_eq] at hws
  rcases hws with ((h1 | h1) | h1) | h1 <;> subst h1 <;>
    exact absurd h (by decide)

/-- A digit character differs from any non-digit character. -/
theorem digit_ne (c d : Char) (h : c.isDigit = true) (hd : d.isDigit = false) :
    c ≠ d := by
  intro he
  subst he
  rw [h] at hd
  exact absurd hd (by decide)

/-- Dropping `parseInt` whitespace from an all-digit string is the
identity. -/
theorem dropWhile_ws_of_digits :
    ∀ (l : List Char), (∀ c ∈ l, c.isDigit = true) →
      l.dropWhile isJsWhitespace = l
  | [], _ => rfl
  | c :: rest, h => by
      have hc := h c (List.mem_cons_self c rest)
      rw [List.dropWhile_cons, digit_not_ws c hc]
      simp

/-- `takeWhile isDigit` keeps an all-digit string whole. -/
theorem takeWhile_digits_self :
    ∀ (l : List Char), (∀ c ∈ l, c.isDigit = true) →
      l.takeWhile Char.isDigit = l
  | [], _ => rfl
  | c :: rest, h => by
      rw [List.takeWhile_cons, h c (List.mem_cons_self c rest)]
      simp only [if_true]
      rw [takeWhile_digits_self rest (fun d hd => h d (List.mem_cons_of_mem c hd))]

/-- On a non-empty all-digit string, `parseInt` returns its decimal
value. -/
theorem jsParseInt_all_digits (s : String) (hne : s.data ≠ [])
    (hd : ∀ c ∈ s.data, c.isDigit = true) :
    jsParseInt s = some ((decimalValue s.data : Nat) : Int) := by
  rw [jsParseInt, dropWhile_ws_of_digits s.data hd]
  cases hcs : s.data with
  | nil => exact absurd hcs hne
  | cons c rest =>
      have hc : c.isDigit = true := by
        rw [hcs] at hd
        exact hd c (List.mem_cons_self c rest)
      have hminus : c ≠ '-' := digit_ne c '-' hc (by decide)
      have hplus : c ≠ '+' := digit_ne c '+' hc (by decide)
      have hall : ∀ d ∈ c :: rest, d.isDigit = true := by rw [← hcs]; exact hd
      rw [jsParseIntCore]
      simp only [List.head?_cons, Option.some.injEq]
      rw [if_neg hminus, if_neg hplus, parseLeadingDigits,
        takeWhile_digits_self _ hall]
      simp

/-! ## The claims -/

/-- C1.  ADD_TRACKED_REPOSITORY is *not* idempotent under duplicate
calls: the pre-insert lookup selects `WHERE owner = ? LIMIT 1` and only
then compares the name, so in a store where owner "a" tracks both
`(a, y)` (first) and `(a, x)`, adding `(a, x)` again misses the existing
row and inserts a duplicate — the table grows to three rows, two of which
carry the pair `(a, x)`. -/
theorem add_tracked_repository_duplicate_row :
    ((addTrackedRepository dupOwnerRows "a" "x" 5).1.filter
        (fun r => r.owner == "a" && r.name == "x")).length = 2 ∧
    (addTrackedRepository dupOwnerRows "a" "x" 5).1.length = 3 := by
  constructor <;> rfl

/-- C7.  When no row carries the requested id, both remove tools reject
the call with a not-found error naming that id and leave the store
untouched. -/
theorem remove_tracked_not_found (rows : List TrackedRepo)
    (prows : List TrackedProject) (i : Nat) (hard : Bool)
    (hr : ∀ r ∈ rows, r.id ≠ i) (hp : ∀ p ∈ prows, p.id ≠ i) :
    removeTrackedRepository rows i hard =
      (rows, .error ("Tracked repository with ID " ++ toString i ++ " not found")) ∧
    removeTrackedProject prows i hard =
      (prows, .error ("Tracked project with ID " ++ toString i ++ " not found")) := by
  have hfr : rows.filter (fun r => r.id == i) = [] :=
    List.filter_eq_nil_iff.mpr (fun r hm => by simpa using hr r hm)
  have hfp : prows.filter (fun p => p.id == i) = [] :=
    List.filter_eq_nil_iff.mpr (fun p hm => by simpa using hp p hm)
  constructor <;>
    simp [removeTrackedRepository, removeTrackedProject, hfr, hfp]

/-- Witness for C7 at a concrete store and id. -/
theorem remove_tracked_not_found_witness :
    removeTrackedRepository wRepoRows 99 false =
      (wRepoRows, .error "Tracked repository with ID 99 not found") ∧
    removeTrackedProject wProjRows 99 false =
      (wProjRows, .error "Tracked project with ID 99 not found") :=
  remove_tracked_not_found wRepoRows wProjRows 99 false
    (by decide) (by decide)

/-- C6.  When a row with the requested id exists, soft delete
(`hardDelete = false`) returns `success = true` with `deletedId = id`,
keeps the table length, sets the row's `isActive` flag to 0 and keeps
the row in the table; hard delete returns the same output and removes
every row with that id from the table. -/
theorem remove_tracked_found (rows : List TrackedRepo)
    (prows : List TrackedProject) (i : Nat)
    (hr : rows.any (fun r => r.id == i) = true)
    (hp : prows.any (fun p => p.id == i) = true) :
    (removeTrackedRepository rows i false).2 = .ok { success := true, deletedId := i } ∧
    ((removeTrackedRepository rows i false).1).length = rows.length ∧
    ((removeTrackedRepository rows i false).1).all
      (fun r => !(r.id == i) || (r.isActive == 0)) = true ∧
    ((removeTrackedRepository rows i false).1).any (fun r => r.id == i) = true ∧
    (removeTrackedRepository rows i true).2 = .ok { success := true, deletedId := i } ∧
    ((removeTrackedRepository rows i true).1).all (fun r => !(r.id == i)) = true ∧
    (removeTrackedProject prows i false).2 = .ok { success := true, deletedId := i } ∧
    ((removeTrackedProject prows i false).1).length = prows.length ∧
    ((removeTrackedProject prows i false).1).all
      (fun p => !(p.id == i) || (p.isActive == 0)) = true ∧
    ((removeTrackedProject prows i false).1).any (fun p => p.id == i) = true ∧
    (removeTrackedProject prows i true).2 = .ok { success := true, deletedId := i } ∧
    ((removeTrackedProject prows i true).1).all (fun p => !(p.id == i)) = true := by
  obtain ⟨r0, hr0m, hr0i⟩ := List.any_eq_true.mp hr
  obtain ⟨p0, hp0m, hp0i⟩ := List.any_eq_true.mp hp
  have hner : rows.filter (fun r => r.id == i) ≠ [] := by
    intro hnil
    have := List.filter_eq_nil_iff.mp hnil r0 hr0m
    exact this hr0i
  have hnep : prows.filter (fun p => p.id == i) ≠ [] := by
    intro hnil
    have := List.filter_eq_nil_iff.mp hnil p0 hp0m
    exact this hp0i
  have hier : ((rows.filter (fun r => r.id == i)).take 1).isEmpty = false := by
    cases hf : rows.filter (fun r => r.id == i) with
    | nil => exact absurd hf hner
    | cons a t => rfl
  have hiep : ((prows.filter (fun p => p.id == i)).take 1).isEmpty = false := by
    cases hf : prows.filter (fun p => p.id == i) with
    | nil => exact absurd hf hnep
    | cons a t => rfl
  have hr0id : r0.id = i := by simpa using hr0i
  have hp0id : p0.id = i := by simpa using hp0i
  refine ⟨?_, ?_, ?_, ?_, ?_, ?_, ?_, ?_, ?_, ?_, ?_, ?_⟩
  · simp [removeTrackedRepository, hier]
  · simp [removeTrackedRepository, hier]
  · simp only [removeTrackedRepository, hier]
    rw [List.all_eq_true]
    intro x hx
    obtain ⟨r, hrm, rfl⟩ := List.mem_map.mp hx
    by_cases hid : r.id = i <;> simp [hid]
  · simp only [removeTrackedRepository, hier]
    rw [List.any_eq_true]
    refine ⟨{ r0 with isActive := 0 }, ?_, by simpa using hr0id⟩
    simpa using List.mem_map.mpr ⟨r0, hr0m, by simp [hr0id]⟩
  · simp [removeTrackedRepository, hier]
  · simp only [removeTrackedRepository, hier]
    rw [List.all_eq_true]
    intro x hx
    exact (List.mem_filter.mp hx).2
  · simp [removeTrackedProject, hiep]
  · simp [removeTrackedProject, hiep]
  · simp only [removeTrackedProject, hiep]
    rw [List.all_eq_true]
    intro x hx
    obtain ⟨q, hqm, rfl⟩ := List.mem_map.mp hx
    by_cases hid : q.id = i <;> simp [hid]
  · simp only [removeTrackedProject, hiep]
    rw [List.any_eq_true]
    refine ⟨{ p0 with isActive := 0 }, ?_, by simpa using hp0id⟩
    simpa using List.mem_map.mpr ⟨p0, hp0m, by simp [hp0id]⟩
  · simp [removeTrackedProject, hiep]
  · simp only [removeTrackedProject, hiep]
    rw [List.all_eq_true]
    intro x hx
    exact (List.mem_filter.mp hx).2

/-- Witness for C6 at a concrete store and id. -/
theorem remove_tracked_found_witness :
    (removeTrackedRepository wRepoRows 1 false).2 =
      .ok { success := true, deletedId := 1 } ∧
    ((removeTrackedRepository wRepoRows 1 false).1).all
      (fun r => !(r.id == 1) || (r.isActive == 0)) = true ∧
    (removeTrackedRepository wRepoRows 1 true).2 =
      .ok { success := true, deletedId := 1 } ∧
    ((removeTrackedRepository wRepoRows 1 true).1).all
      (fun r => !(r.id == 1)) = true ∧
    (removeTrackedProject wProjRows 1 false).2 =
      .ok { success := true, deletedId := 1 } ∧
    ((removeTrackedProject wProjRows 1 true).1).all
      (fun p => !(p.id == 1)) = true := by
  have h := remove_tracked_found wRepoRows wProjRows 1 (by decide) (by decide)
  exact ⟨h.1, h.2.2.1, h.2.2.2.2.1, h.2.2.2.2.2.1, h.2.2.2.2.2.2.1,
    h.2.2.2.2.2.2.2.2.2.2.2⟩

/-- C10.  Reactivation on a duplicate add and soft delete modify only the
`isActive` flag (plus, for project adds, the title): on the rows that
already existed, every other column — id, owner, name, `organizationLogin`,
`projectId`, `createdAt` — is preserved by both add tools and by both
remove tools with `hardDelete = false`. -/
theorem tracking_frame_preservation (rows : List TrackedRepo)
    (prows : List TrackedProject) (owner name pid title org : String)
    (now i : Nat) :
    (((addTrackedRepository rows owner name now).1.take rows.length).map repoFrame
       = rows.map repoFrame) ∧
    (((addTrackedProject prows pid title org now).1.take prows.length).map projectAddFrame
       = prows.map projectAddFrame) ∧
    (((removeTrackedRepository rows i false).1).map repoFrame
       = rows.map repoFrame) ∧
    (((removeTrackedProject prows i false).1).map projectFullFrame
       = prows.map projectFullFrame) := by
  refine ⟨?_, ?_, ?_, ?_⟩
  · rcases hm : ((rows.filter (fun r => r.owner == owner)).take 1).find?
        (fun r => r.name == name) with _ | m
    · simp only [addTrackedRepository, hm]
      rw [List.take_left]
    · simp only [addTrackedRepository, hm]
      by_cases hact : m.isActive = 0
      · rw [if_pos hact]
        have hlen : (rows.map (fun r =>
            if r.id = m.id then { r with isActive := 1 } else r)).length
            = rows.length := List.length_map ..
        rw [← hlen, List.take_length _, List.map_map]
        refine List.map_congr_left (fun a _ => ?_)
        by_cases hid : a.id = m.id <;> simp [hid, repoFrame]
      · rw [if_neg hact, List.take_length _]
  · rcases hm : ((prows.filter (fun r => r.projectId == pid)).take 1).head?
        with _ | m
    · simp only [addTrackedProject, hm]
      rw [List.take_left]
    · simp only [addTrackedProject, hm]
      by_cases hact : m.isActive = 0
      · rw [if_pos hact]
        have hlen : (prows.map (fun r =>
            if r.id = m.id then { r with isActive := 1, title := title } else r)).length
            = prows.length := List.length_map ..
        rw [← hlen, List.take_length _, List.map_map]
        refine List.map_congr_left (fun a _ => ?_)
        by_cases hid : a.id = m.id <;> simp [hid, projectAddFrame]
      · rw [if_neg hact]
        have hlen : (prows.map (fun r =>
            if r.id = m.id then { r with title := title } else r)).length
            = prows.length := List.length_map ..
        rw [← hlen, List.take_length _, List.map_map]
        refine List.map_congr_left (fun a _ => ?_)
        by_cases hid : a.id = m.id <;> simp [hid, projectAddFrame]
  · by_cases hie : ((rows.filter (fun r => r.id == i)).take 1).isEmpty
    · simp [removeTrackedRepository, hie]
    · simp only [removeTrackedRepository, Bool.not_eq_true] at hie ⊢
      rw [if_neg (by simp [hie]), if_neg (by simp), List.map_map]
      refine List.map_congr_left (fun a _ => ?_)
      by_cases hid : a.id = i <;> simp [hid, repoFrame]
  · by_cases hie : ((prows.filter (fun p => p.id == i)).take 1).isEmpty
    · simp [removeTrackedProject, hie]
    · simp only [removeTrackedProject, Bool.not_eq_true] at hie ⊢
      rw [if_neg (by simp [hie]), if_neg (by simp), List.map_map]
      refine List.map_congr_left (fun a _ => ?_)
      by_cases hid : a.id = i <;> simp [hid, projectFullFrame]

/-- C8.  When a row with the given GitHub project node id already exists
(in a store whose `isActive` column holds only 0 or 1, as the schema
prescribes), ADD_TRACKED_PROJECT inserts nothing: the table keeps its
length, the returned project carries the requested `projectId`, the
freshly supplied title and an active flag, and the store afterwards
contains a row with that `projectId`, active and retitled.  Moreover the
operation preserves distinctness of the `projectId` column on any
store. -/
theorem add_tracked_project_no_duplicate (rows : List TrackedProject)
    (p t g : String) (now : Nat)
    (hact : ∀ r ∈ rows, r.isActive = 0 ∨ r.isActive = 1)
    (hex : rows.any (fun r => r.projectId == p) = true) :
    ((addTrackedProject rows p t g now).1).length = rows.length ∧
    ((addTrackedProject rows p t g now).2).projectId = p ∧
    ((addTrackedProject rows p t g now).2).title = t ∧
    ((addTrackedProject rows p t g now).2).isActive = true ∧
    ((addTrackedProject rows p t g now).1).any
      (fun r => r.projectId == p && r.isActive == 1 && r.title == t) = true ∧
    (∀ rows2 : List TrackedProject,
      (rows2.map (fun r => r.projectId)).Nodup →
      (((addTrackedProject rows2 p t g now).1).map (fun r => r.projectId)).Nodup) := by
  obtain ⟨r0, hr0m, hr0p⟩ := List.any_eq_true.mp hex
  have hr0p' : r0.projectId = p := by simpa using hr0p
  have hne : rows.filter (fun r => r.projectId == p) ≠ [] := by
    intro hnil
    exact (List.filter_eq_nil_iff.mp hnil r0 hr0m) hr0p
  obtain ⟨a, t', hft⟩ : ∃ a t', rows.filter (fun r => r.projectId == p) = a :: t' := by
    cases hf : rows.filter (fun r => r.projectId == p) with
    | nil => exact absurd hf hne
    | cons a t' => exact ⟨a, t', rfl⟩
  have hhead : ((rows.filter (fun r => r.projectId == p)).take 1).head? = some a := by
    rw [hft]; rfl
  have ham : a ∈ rows ∧ (a.projectId == p) = true := by
    have : a ∈ rows.filter (fun r => r.projectId == p) := by
      rw [hft]; exact List.mem_cons_self a t'
    exact List.mem_filter.mp this
  have hap : a.projectId = p := by simpa using ham.2
  have haa : a.isActive = 0 ∨ a.isActive = 1 := hact a ham.1
  -- the updated table in either branch is a map that we can analyse
  refine ⟨?_, ?_, ?_, ?_, ?_, ?_⟩
  · simp only [addTrackedProject, hhead]
    by_cases h0 : a.isActive = 0 <;> simp [h0]
  · simp only [addTrackedProject, hhead]
    by_cases h0 : a.isActive = 0 <;> simp [h0, projectOut, hap]
  · simp only [addTrackedProject, hhead]
    by_cases h0 : a.isActive = 0 <;> simp [h0, projectOut]
  · simp only [addTrackedProject, hhead]
    by_cases h0 : a.isActive = 0
    · simp [h0, projectOut]
    · have h1 : a.isActive = 1 := haa.resolve_left h0
      simp [h0, projectOut, h1]
  · simp only [addTrackedProject, hhead]
    by_cases h0 : a.isActive = 0
    · rw [if_pos h0, List.any_eq_true]
      refine ⟨{ a with isActive := 1, title := t }, ?_, by simp [hap]⟩
      exact List.mem_map.mpr ⟨a, ham.1, by simp⟩
    · have h1 : a.isActive = 1 := haa.resolve_left h0
      rw [if_neg h0, List.any_eq_true]
      refine ⟨{ a with title := t }, ?_, by simp [hap, h1]⟩
      exact List.mem_map.mpr ⟨a, ham.1, by simp⟩
  · intro rows2 hnd
    by_cases hex2 : rows2.filter (fun r => r.projectId == p) = []
    · have hhead2 : ((rows2.filter (fun r => r.projectId == p)).take 1).head? =
          (none : Option TrackedProject) := by rw [hex2]; rfl
      simp only [addTrackedProject, hhead2]
      rw [List.map_append]
      rw [List.nodup_append]
      refine ⟨hnd, by simp, ?_⟩
      intro x hx hx2
      simp only [List.map_cons, List.map_nil, List.mem_cons,
        List.not_mem_nil, or_false] at hx2
      obtain ⟨r, hrm, hrp⟩ := List.mem_map.mp hx
      subst hx2
      have := List.filter_eq_nil_iff.mp hex2 r hrm
      rw [hrp] at this
      simp at this
    · obtain ⟨b, t2, hfb⟩ : ∃ b t2, rows2.filter (fun r => r.projectId == p) = b :: t2 := by
        cases hf : rows2.filter (fun r => r.projectId == p) with
        | nil => exact absurd hf hex2
        | cons b t2 => exact ⟨b, t2, rfl⟩
      have hhead2 : ((rows2.filter (fun r => r.projectId == p)).take 1).head? = some b := by
        rw [hfb]; rfl
      simp only [addTrackedProject, hhead2]
      by_cases h0 : b.isActive = 0
      · rw [if_pos h0, List.map_map]
        have : rows2.map ((fun r => r.projectId) ∘ (fun r =>
            if r.id = b.id then { r with isActive := 1, title := t } else r))
            = rows2.map (fun r => r.projectId) := by
          refine List.map_congr_left (fun x _ => ?_)
          by_cases hid : x.id = b.id <;> simp [hid]
        rw [this]; exact hnd
      · rw [if_neg h0, List.map_map]
        have : rows2.map ((fun r => r.projectId) ∘ (fun r =>
            if r.id = b.id then { r with title := t } else r))
            = rows2.map (fun r => r.projectId) := by
          refine List.map_congr_left (fun x _ => ?_)
          by_cases hid : x.id = b.id <;> simp [hid]
        rw [this]; exact hnd

/-- Witness for C8 at a store holding the inactive project `PVT_1`. -/
theorem add_tracked_project_no_duplicate_witness :
    ((addTrackedProject wProjRows "PVT_1" "New" "deco-cx" 9).1).length = 1 ∧
    ((addTrackedProject wProjRows "PVT_1" "New" "deco-cx" 9).2).title = "New" ∧
    ((addTrackedProject wProjRows "PVT_1" "New" "deco-cx" 9).2).isActive = true ∧
    ((addTrackedProject wProjRows "PVT_1" "New" "deco-cx" 9).1).any
      (fun r => r.projectId == "PVT_1" && r.isActive == 1 && r.title == "New") = true := by
  have h := add_tracked_project_no_duplicate wProjRows "PVT_1" "New" "deco-cx" 9
    (by decide) (by decide)
  exact ⟨h.1, h.2.2.1, h.2.2.2.1, h.2.2.2.2.1⟩

/-- C2.  A 429 response makes both `graphqlQuery` and `restRequest` fail
with the distinguished rate-limit error; its `retryAfter` field is 60
when the `Retry-After` header is absent, and the decimal value of the
header when the header is present with an integer value. -/
theorem rate_limit_429_retry_after {α : Type} (respG : HttpResponseG α)
    (respR : HttpResponseR α) (empty : α) (s : String)
    (hG : respG.status = 429) (hR : respR.status = 429) :
    (respG.retryAfterHeader = none →
      rateLimitRetry (graphqlQuery respG) = some (some 60)) ∧
    (respG.retryAfterHeader = some s → s.data ≠ [] →
      (∀ c ∈ s.data, c.isDigit = true) →
      rateLimitRetry (graphqlQuery respG) = some (some (decimalValue s.data : Int))) ∧
    (respR.retryAfterHeader = none →
      rateLimitRetry (restRequest respR empty) = some (some 60)) ∧
    (respR.retryAfterHeader = some s → s.data ≠ [] →
      (∀ c ∈ s.data, c.isDigit = true) →
      rateLimitRetry (restRequest respR empty) = some (some (decimalValue s.data : Int))) := by
  have hval : ∀ (h : Option String), h = some s → s.data ≠ [] →
      (∀ c ∈ s.data, c.isDigit = true) →
      retryAfterValue h = some (decimalValue s.data : Int) := by
    intro h hh hne hd
    subst hh
    have hs : s ≠ "" := by
      intro he
      subst he
      exact hne rfl
    rw [retryAfterValue, if_neg hs]
    exact jsParseInt_all_digits s hne hd
  refine ⟨?_, ?_, ?_, ?_⟩
  · intro hh
    simp [graphqlQuery, hG, rateLimitRetry, retryAfterValue, hh]
  · intro hh hne hd
    rw [graphqlQuery]
    simp only [hG, if_pos]
    simp [rateLimitRetry, hval respG.retryAfterHeader hh hne hd]
  · intro hh
    simp [restRequest, hR, rateLimitRetry, retryAfterValue, hh]
  · intro hh hne hd
    rw [restRequest]
    simp only [hR, if_pos]
    simp [rateLimitRetry, hval respR.retryAfterHeader hh hne hd]

/-- Witness for C2: concrete 429 responses with and without a
`Retry-After: 30` header, through both request paths. -/
theorem rate_limit_429_retry_after_witness :
    rateLimitRetry (graphqlQuery respG429none) = some (some 60) ∧
    rateLimitRetry (graphqlQuery respG429s) = some (some 30) ∧
    rateLimitRetry (restRequest respR429none 0) = some (some 60) ∧
    rateLimitRetry (restRequest respR429s 0) = some (some 30) := by
  refine ⟨?_, ?_, ?_, ?_⟩
  · exact (rate_limit_429_retry_after respG429none respR429none 0 "30" rfl rfl).1 rfl
  · have h := (rate_limit_429_retry_after respG429s respR429s 0 "30" rfl rfl).2.1
      rfl (by decide) (by decide)
    exact h.trans (by decide)
  · exact (rate_limit_429_retry_after respG429none respR429none 0 "30" rfl rfl).2.2.1 rfl
  · have h := (rate_limit_429_retry_after respG429s respR429s 0 "30" rfl rfl).2.2.2
      rfl (by decide) (by decide)
    exact h.trans (by decide)

/-- C4, counterexample.  A GraphQL request answered 500 with a parseable
JSON body whose `message` field is "boom" fails with a generic error that
does not carry that message anywhere: `graphqlQuery` builds its non-2xx
error from status and status text alone. -/
theorem graphql_message_dropped_cex :
    cexResp500.status ≠ 429 ∧
    responseOk cexResp500.status = false ∧
    cexResp500.body.message = some "boom" ∧
    graphqlQuery cexResp500 =
      .error (.generic "GitHub API request failed: 500 Internal Server Error") ∧
    ¬ ("boom".data <:+: "GitHub API request failed: 500 Internal Server Error".data) := by
  refine ⟨by decide, by decide, rfl, rfl, by decide⟩

/-- C4, amended.  On a status that is neither 2xx nor 429, `graphqlQuery`
fails with a generic error carrying the HTTP status code and status text
(only); the body's `message` field is appended only on the REST path,
when the body parses to JSON with a non-empty message. -/
theorem non2xx_generic_error {α : Type} (respG : HttpResponseG α)
    (respR : HttpResponseR α) (empty : α) (m : String)
    (hG429 : respG.status ≠ 429) (hGok : responseOk respG.status = false)
    (hR429 : respR.status ≠ 429) (hRok : responseOk respR.status = false) :
    graphqlQuery respG = .error (.generic ("GitHub API request failed: "
      ++ toString respG.status ++ " " ++ respG.statusText)) ∧
    (respR.errorBody = some { message := some m } → m ≠ "" →
      restRequest respR empty = .error (.generic ("GitHub REST API request failed: "
        ++ toString respR.status ++ " " ++ respR.statusText ++ " - " ++ m))) := by
  constructor
  · simp [graphqlQuery, hG429, hGok]
  · intro hb hm
    simp [restRequest, hR429, hRok, hb, hm]

/-- Witness for the amended C4 at concrete 404 responses. -/
theorem non2xx_generic_error_witness :
    graphqlQuery respG404 =
      .error (.generic "GitHub API request failed: 404 Not Found") ∧
    restRequest respR404 0 =
      .error (.generic "GitHub REST API request failed: 404 Not Found - nope") := by
  have h := non2xx_generic_error respG404 respR404 0 "nope"
    (by decide) (by decide) (by decide) (by decide)
  exact ⟨h.1, h.2 rfl (by decide)⟩

/-- C5.  On a 2xx response, `graphqlQuery` fails with an error when the
body's top-level `errors` array is non-empty or the `data` field is
absent, and returns exactly the `data` payload otherwise. -/
theorem graphql_2xx_data_or_error {α : Type} (resp : HttpResponseG α) (d : α)
    (hok : responseOk resp.status = true) :
    (resp.body.errors.getD [] ≠ [] →
      isGenericError (graphqlQuery resp) = true) ∧
    (resp.body.data = none → isGenericError (graphqlQuery resp) = true) ∧
    (resp.body.errors.getD [] = [] → resp.body.data = some d →
      graphqlQuery resp = .ok d) := by
  have h429 : resp.status ≠ 429 := by
    have := of_decide_eq_true hok
    omega
  have hq : graphqlQuery resp = graphqlData resp.body := by
    simp [graphqlQuery, h429, hok]
  refine ⟨?_, ?_, ?_⟩
  · intro hes
    rw [hq, graphqlData]
    have : (resp.body.errors.getD []).isEmpty = false := by
      simpa [List.isEmpty_iff] using hes
    simp [this, isGenericError]
  · intro hdn
    rw [hq, graphqlData]
    cases hie : (resp.body.errors.getD []).isEmpty <;>
      simp [hie, hdn, isGenericError]
  · intro hes hd
    rw [hq, graphqlData]
    have : (resp.body.errors.getD []).isEmpty = true := by simp [hes]
    simp [this, hd]

/-- Witness for C5: a 2xx response carrying GraphQL errors fails, one
carrying a payload succeeds with exactly that payload. -/
theorem graphql_2xx_data_or_error_witness :
    isGenericError (graphqlQuery respOkErrs) = true ∧
    graphqlQuery respOkData = .ok 7 := by
  refine ⟨?_, ?_⟩
  · exact (graphql_2xx_data_or_error respOkErrs 0 (by decide)).1 (by decide)
  · exact (graphql_2xx_data_or_error respOkData 7 (by decide)).2.2 (by decide) rfl

/-- C3, counterexample.  The page-size parameter is *not* passed through
for every value at most 100: `Math.min(context.first || 20, 100)` treats
the (perfectly valid) input 0 as falsy, so `first = 0 ≤ 100` is sent to
GitHub as 20, not 0. -/
theorem page_size_zero_not_passed_cex :
    (0 : Int) ≤ 100 ∧
    ((listIssuesExec ctxW 0 oracle0).2).map GQLRequest.first = [some 20] ∧
    (some (20 : Int) ≠ some (0 : Int)) := by
  refine ⟨by decide, rfl, by decide⟩

/-- C3, amended.  For each of the four paginated tools, a `first` above
100 is clamped to 100 and a non-zero `first` at most 100 is passed
through unchanged; the falsy input 0 is replaced by the default page
size 20. -/
theorem page_size_clamp {α : Type} (ctx : Option RequestState) (f : Int)
    (org : String) (o1 o2 o3 o4 : GQLRequest → HttpResponseG α)
    (htok : hasGithubToken ctx = true) (horg : org ≠ "") :
    (100 < f →
      (listIssuesExec ctx f o1).2 = [{ queryId := .listIssues, first := some 100 }] ∧
      (listIssueCommentsExec ctx f o2).2 = [{ queryId := .listComments, first := some 100 }] ∧
      (listGitHubProjectsExec ctx org f o3).2 = [{ queryId := .listProjects, first := some 100 }] ∧
      (listProjectItemsExec ctx f o4).2 = [{ queryId := .listProjectItems, first := some 100 }]) ∧
    (f ≠ 0 → f ≤ 100 →
      (listIssuesExec ctx f o1).2 = [{ queryId := .listIssues, first := some f }] ∧
      (listIssueCommentsExec ctx f o2).2 = [{ queryId := .listComments, first := some f }] ∧
      (listGitHubProjectsExec ctx org f o3).2 = [{ queryId := .listProjects, first := some f }] ∧
      (listProjectItemsExec ctx f o4).2 = [{ queryId := .listProjectItems, first := some f }]) ∧
    (f = 0 →
      (listIssuesExec ctx f o1).2 = [{ queryId := .listIssues, first := some 20 }] ∧
      (listIssueCommentsExec ctx f o2).2 = [{ queryId := .listComments, first := some 20 }] ∧
      (listGitHubProjectsExec ctx org f o3).2 = [{ queryId := .listProjects, first := some 20 }] ∧
      (listProjectItemsExec ctx f o4).2 = [{ queryId := .listProjectItems, first := some 20 }]) := by
  refine ⟨?_, ?_, ?_⟩
  · intro hf
    have hps : requestedPageSize f = 100 := by
      rw [requestedPageSize, jsNumberOr, if_neg (by omega)]
      omega
    refine ⟨?_, ?_, ?_, ?_⟩ <;>
      simp [listIssuesExec, listIssueCommentsExec, listGitHubProjectsExec,
        listProjectItemsExec, guardedSingle, htok, horg, hps]
  · intro hf0 hf
    have hps : requestedPageSize f = f := by
      rw [requestedPageSize, jsNumberOr, if_neg hf0]
      omega
    refine ⟨?_, ?_, ?_, ?_⟩ <;>
      simp [listIssuesExec, listIssueCommentsExec, listGitHubProjectsExec,
        listProjectItemsExec, guardedSingle, htok, horg, hps]
  · intro hf0
    have hps : requestedPageSize f = 20 := by
      rw [requestedPageSize, jsNumberOr, if_pos hf0]
      rfl
    refine ⟨?_, ?_, ?_, ?_⟩ <;>
      simp [listIssuesExec, listIssueCommentsExec, listGitHubProjectsExec,
        listProjectItemsExec, guardedSingle, htok, horg, hps]

/-- Witness for the amended C3 at `first = 150`, a configured context and
a fixed oracle. -/
theorem page_size_clamp_witness :
    (listIssuesExec ctxW 150 oracle0).2 =
      [{ queryId := .listIssues, first := some 100 }] ∧
    (listIssueCommentsExec ctxW 150 oracle0).2 =
      [{ queryId := .listComments, first := some 100 }] ∧
    (listGitHubProjectsExec ctxW "deco-cx" 150 oracle0).2 =
      [{ queryId := .listProjects, first := some 100 }] ∧
    (listProjectItemsExec ctxW 150 oracle0).2 =
      [{ queryId := .listProjectItems, first := some 100 }] :=
  (page_size_clamp ctxW 150 "deco-cx" oracle0 oracle0 oracle0 oracle0
    rfl (by decide)).1 (by decide)

/-- C9.  Whenever the request context carries no (non-empty) GitHub
token, every GitHub-facing tool — all eleven issue tools, all seven
project tools and the user tool — rejects the call with the
configuration-error message and issues no GraphQL request at all. -/
theorem tools_reject_missing_token {α : Type} (ctx : Option RequestState)
    (org : String) (f : Int) (oracle : GQLRequest → HttpResponseG α)
    (htok : hasGithubToken ctx = false) :
    listIssuesExec ctx f oracle = (.error (.generic tokenNotConfiguredMessage), []) ∧
    getIssueExec ctx oracle = (.error (.generic tokenNotConfiguredMessage), []) ∧
    createIssueExec ctx oracle = (.error (.generic tokenNotConfiguredMessage), []) ∧
    updateIssueExec ctx oracle = (.error (.generic tokenNotConfiguredMessage), []) ∧
    closeIssueExec ctx oracle = (.error (.generic tokenNotConfiguredMessage), []) ∧
    addIssueCommentExec ctx oracle = (.error (.generic tokenNotConfiguredMessage), []) ∧
    listIssueCommentsExec ctx f oracle = (.error (.generic tokenNotConfiguredMessage), []) ∧
    addLabelsToIssueExec ctx oracle = (.error (.generic tokenNotConfiguredMessage), []) ∧
    removeLabelsFromIssueExec ctx oracle = (.error (.generic tokenNotConfiguredMessage), []) ∧
    assignIssueExec ctx oracle = (.error (.generic tokenNotConfiguredMessage), []) ∧
    unassignIssueExec ctx oracle = (.error (.generic tokenNotConfiguredMessage), []) ∧
    listGitHubProjectsExec ctx org f oracle = (.error (.generic tokenNotConfiguredMessage), []) ∧
    getProjectDetailsExec ctx oracle = (.error (.generic tokenNotConfiguredMessage), []) ∧
    createProjectExec ctx org oracle = (.error (.generic tokenNotConfiguredMessage), []) ∧
    updateProjectExec ctx oracle = (.error (.generic tokenNotConfiguredMessage), []) ∧
    deleteProjectExec ctx oracle = (.error (.generic tokenNotConfiguredMessage), []) ∧
    listProjectItemsExec ctx f oracle = (.error (.generic tokenNotConfiguredMessage), []) ∧
    addItemToProjectExec ctx oracle = (.error (.generic tokenNotConfiguredMessage), []) ∧
    userToolExec ctx oracle = (.error (.generic tokenNotConfiguredMessage), []) := by
  refine ⟨?_, ?_, ?_, ?_, ?_, ?_, ?_, ?_, ?_, ?_, ?_, ?_, ?_, ?_, ?_, ?_, ?_, ?_, ?_⟩ <;>
    simp [listIssuesExec, getIssueExec, createIssueExec, updateIssueExec,
      closeIssueExec, addIssueCommentExec, listIssueCommentsExec,
      addLabelsToIssueExec, removeLabelsFromIssueExec, assignIssueExec,
      unassignIssueExec, listGitHubProjectsExec, getProjectDetailsExec,
      createProjectExec, updateProjectExec, deleteProjectExec,
      listProjectItemsExec, addItemToProjectExec, userToolExec,
      guardedSingle, guardedChain, htok]

/-- Witness for C9: an absent request context is rejected by
representative issue, project and user tools without any request being
sent. -/
theorem tools_reject_missing_token_witness :
    listIssuesExec (none : Option RequestState) 5 oracle0 =
      (.error (.generic tokenNotConfiguredMessage), []) ∧
    createProjectExec (none : Option RequestState) "deco-cx" oracle0 =
      (.error (.generic tokenNotConfiguredMessage), []) ∧
    userToolExec (none : Option RequestState) oracle0 =
      (.error (.generic tokenNotConfiguredMessage), []) := by
  have h := tools_reject_missing_token (none : Option RequestState)
    "deco-cx" 5 oracle0 rfl
  exact ⟨h.1, h.2.2.2.2.2.2.2.2.2.2.2.2.2.1, h.2.2.2.2.2.2.2.2.2.2.2.2.2.2.2.2.2.2⟩

end GithubProjectsMCP
